import Mathlib

/-!
Verification development for the daystar-research-hub semantic matching and
classification core.

The definitions below are a shallow embedding of
`Backend/research_graph/utils.py` (the `SDGClassifier`) and
`Backend/research_graph/services.py` (embedding service and the matching
services).  Python strings are modelled as Lean `String` at the
ASCII/code-point level, Python floats as `ℚ` (the scoring arithmetic of the
classifier is exact over halves, and the similarity arithmetic of the
services is exact over halves as well), Python `None`-or-value as `Option`,
and Python exceptions as `Except String`.
-/

namespace ResearchGraph

/-! ## Character-level helpers for `SDGClassifier._normalize_text`

`_normalize_text` does `text.lower()`, then
`re.sub(r'[^a-z0-9\s\-]', ' ', text)`, then `' '.join(text.split())`.
We model `str.lower()` at the ASCII level (`pyLower`), the regexp
substitution by `subChars` (a character is kept iff it is a lowercase
letter, a digit, whitespace or a hyphen), and `str.split()` (split on
whitespace runs, dropping empty pieces) by `pyWords`. -/

/-- Python `str.lower()` at the ASCII level: map code points 65-90 (A-Z)
to 97-122 (a-z), leave everything else unchanged. -/
def pyLower (c : Char) : Char :=
  if 65 ≤ c.toNat ∧ c.toNat ≤ 90 then Char.ofNat (c.toNat + 32) else c

/-- The character class `[a-z0-9\s\-]` of the regexp in `_normalize_text`:
lowercase letters, digits, whitespace, hyphen. -/
def keepChar (c : Char) : Bool :=
  (97 ≤ c.toNat && c.toNat ≤ 122) || (48 ≤ c.toNat && c.toNat ≤ 57) ||
    c.isWhitespace || c.toNat = 45

/-- The substitution `re.sub(r'[^a-z0-9\s\-]', ' ', text)`: every character
outside the kept class becomes a single space. -/
def subChars (l : List Char) : List Char :=
  l.map (fun c => if keepChar c then c else ' ')

/-- One step of splitting a string into whitespace-separated pieces,
consumed by `List.foldr`: a whitespace character closes the current piece,
any other character is prepended to it. -/
def addChar (c : Char) (ws : List (List Char)) : List (List Char) :=
  if c.isWhitespace then [] :: ws
  else
    match ws with
    | [] => [[c]]
    | w :: rest => (c :: w) :: rest

/-- All (possibly empty) whitespace-separated pieces of a character list. -/
def splitAux (l : List Char) : List (List Char) :=
  l.foldr addChar []

/-- Python `str.split()` (no separator argument): whitespace-separated
words, with empty pieces dropped. -/
def pyWords (l : List Char) : List (List Char) :=
  (splitAux l).filter (fun w => !w.isEmpty)

/-- Python string comparison `a <= b` on character lists: lexicographic in
the code points. This is the order `sorted` uses on the category codes. -/
def charListLe : List Char → List Char → Bool
  | [], _ => true
  | _ :: _, [] => false
  | a :: as, b :: bs =>
    if a.toNat = b.toNat then charListLe as bs else decide (a.toNat < b.toNat)

/-- Python string comparison `a <= b` (lexicographic in code points). -/
def pyStrLe (a b : String) : Bool :=
  charListLe a.data b.data

namespace SDGClassifier

/-- `SDGClassifier._normalize_text`: lowercase, replace every character
outside `[a-z0-9\s\-]` by a space, collapse whitespace
(`' '.join(text.split())`). `joinWords` below is the `' '.join`. -/
def joinWords : List (List Char) → List Char
  | [] => []
  | [w] => w
  | w :: x :: ws => w ++ ' ' :: joinWords (x :: ws)

/-- `SDGClassifier._normalize_text` from `utils.py`. -/
def _normalize_text (s : String) : String :=
  (joinWords (pyWords (subChars (s.data.map pyLower)))).asString

/-- `SDGClassifier._tokenize`: `set(text.split())`. The Python `set` is
only ever used for membership tests, so it is modelled as the list of
words (membership coincides). -/
def _tokenize (s : String) : List String :=
  (pyWords s.data).map List.asString

/-- Credit of one keyword phrase against the token set, in half-credit
units (so `2` is the `+1` of the source and `1` is the `+0.5`):
`keyword.lower().split()`, then full credit if every word is a token,
half credit if at least one word is a token. -/
def phraseCredit (tokens : List String) (keyword : String) : ℕ :=
  let keyword_tokens := (pyWords (keyword.data.map pyLower)).map List.asString
  if keyword_tokens.all (fun t => tokens.contains t) then 2
  else if keyword_tokens.any (fun t => tokens.contains t) then 1
  else 0

/-- `SDGClassifier._count_keyword_matches`: sum the credits and truncate
with `int(count)`. The credits are accumulated in half-credit units, so
the truncation toward zero of the source is the natural-number division
by `2`. -/
def _count_keyword_matches (tokens : List String) (keywords : List String) : ℕ :=
  ((keywords.map (phraseCredit tokens)).sum) / 2

/-- Keywords of `SDGChoices.SDG_1` in `SDG_KEYWORDS`. -/
def sdg1_keywords : List String :=
  ["poverty", "poor", "low-income", "vulnerable", "disadvantaged",
   "economic inequality", "welfare", "subsistence", "destitution",
   "extreme poverty", "absolute poverty", "poverty alleviation",
   "impoverished", "impoverishment", "deprivation", "inequitable",
   "income inequality", "wealth gap", "economic disparity"]

/-- Keywords of `SDGChoices.SDG_2` in `SDG_KEYWORDS`. -/
def sdg2_keywords : List String :=
  ["hunger", "food security", "malnutrition", "famine", "starvation",
   "agriculture", "crop", "farming", "livestock", "nutrition",
   "food production", "agricultural productivity", "food supply",
   "subsistence farming", "food insecurity", "dietary", "nutritional"]

/-- Keywords of `SDGChoices.SDG_3` in `SDG_KEYWORDS`. -/
def sdg3_keywords : List String :=
  ["health", "disease", "medical", "healthcare", "illness", "wellness",
   "hospital", "clinic", "physician", "medicine", "treatment", "vaccine",
   "mortality", "morbidity", "epidemiology", "pandemic", "epidemic",
   "mental health", "well-being", "healthy", "sanitation", "hygiene"]

/-- Keywords of `SDGChoices.SDG_4` in `SDG_KEYWORDS`. -/
def sdg4_keywords : List String :=
  ["education", "learning", "school", "university", "student",
   "teacher", "curriculum", "academic", "literacy", "training",
   "skill development", "educational", "pedagogical", "didactic",
   "higher education", "primary education", "secondary education",
   "quality education", "equal education"]

/-- Keywords of `SDGChoices.SDG_5` in `SDG_KEYWORDS`. -/
def sdg5_keywords : List String :=
  ["gender equality", "gender", "women", "female", "woman",
   "feminism", "feminist", "discrimination", "bias", "equity",
   "women\x27s rights", "gender-based violence", "sexual harassment",
   "empowerment", "gender parity", "male-female", "gender gap"]

/-- Keywords of `SDGChoices.SDG_6` in `SDG_KEYWORDS`. -/
def sdg6_keywords : List String :=
  ["water", "sanitation", "hygiene", "clean water", "drinking water",
   "water supply", "water treatment", "wastewater", "sewage",
   "water quality", "water scarcity", "water pollution", "aquatic",
   "hydration", "water security", "water resources"]

/-- Keywords of `SDGChoices.SDG_7` in `SDG_KEYWORDS`. -/
def sdg7_keywords : List String :=
  ["energy", "renewable", "solar", "wind", "hydroelectric", "geothermal",
   "fossil fuel", "electricity", "power", "clean energy", "sustainable energy",
   "energy efficiency", "energy access", "energy security", "biofuel",
   "nuclear energy", "energy transition"]

/-- Keywords of `SDGChoices.SDG_8` in `SDG_KEYWORDS`. -/
def sdg8_keywords : List String :=
  ["employment", "jobs", "work", "labor", "labour", "wage", "workplace",
   "economic growth", "economic development", "productivity", "entrepreneurship",
   "business", "decent work", "working conditions", "unemployment",
   "formal employment", "informal economy"]

/-- Keywords of `SDGChoices.SDG_9` in `SDG_KEYWORDS` (note: the source
list contains `innovation` twice; the duplicate is preserved since it
contributes to both the credit sum and the list length). -/
def sdg9_keywords : List String :=
  ["infrastructure", "industry", "innovation", "technology", "industrial",
   "manufacturing", "construct", "bridge", "road", "transport",
   "innovation", "research", "development", "industrial development",
   "resilient infrastructure", "sustainable industry", "ict"]

/-- Keywords of `SDGChoices.SDG_10` in `SDG_KEYWORDS`. -/
def sdg10_keywords : List String :=
  ["inequality", "inequitable", "inequity", "discrimination", "marginalize",
   "disadvantaged", "vulnerable", "disparity", "gap", "unequal",
   "social inclusion", "social cohesion", "redistribution", "equity"]

/-- Keywords of `SDGChoices.SDG_11` in `SDG_KEYWORDS`. -/
def sdg11_keywords : List String :=
  ["city", "urban", "community", "settlement", "housing", "slum",
   "sustainable city", "sustainable community", "livable", "resilient",
   "disaster reduction", "infrastructure", "pollution", "green space",
   "public transport", "municipal"]

/-- Keywords of `SDGChoices.SDG_12` in `SDG_KEYWORDS`. -/
def sdg12_keywords : List String :=
  ["consumption", "production", "waste", "recycle", "circular economy",
   "sustainable consumption", "responsible consumption", "resource",
   "material", "pollution", "sustainable management", "reduce",
   "reuse", "repurpose", "lifecycle", "footprint"]

/-- Keywords of `SDGChoices.SDG_13` in `SDG_KEYWORDS`. -/
def sdg13_keywords : List String :=
  ["climate", "global warming", "greenhouse gas", "carbon", "emissions",
   "temperature", "weather", "climate change", "mitigation", "adaptation",
   "climate action", "climate variability", "extreme weather", "gdp",
   "carbon dioxide", "methane", "environmental"]

/-- Keywords of `SDGChoices.SDG_14` in `SDG_KEYWORDS`. -/
def sdg14_keywords : List String :=
  ["ocean", "marine", "sea", "aquatic", "fish", "fishing", "coral",
   "marine ecosystem", "biodiversity", "ocean acidification", "pollution",
   "overfishing", "sustainable fisheries", "coastal", "blue economy",
   "maritime", "water body"]

/-- Keywords of `SDGChoices.SDG_15` in `SDG_KEYWORDS`. -/
def sdg15_keywords : List String :=
  ["forest", "woodland", "terrestrial", "ecosystem", "biodiversity",
   "species", "wildlife", "conservation", "endangered", "habitat",
   "deforestation", "land degradation", "desertification", "wetland",
   "vegetation", "fauna", "flora"]

/-- Keywords of `SDGChoices.SDG_16` in `SDG_KEYWORDS`. -/
def sdg16_keywords : List String :=
  ["peace", "justice", "institution", "governance", "corruption",
   "violence", "conflict", "law enforcement", "legal", "rule of law",
   "human rights", "discrimination", "accountability", "transparency",
   "democratic", "inclusive"]

/-- Keywords of `SDGChoices.SDG_17` in `SDG_KEYWORDS`. -/
def sdg17_keywords : List String :=
  ["partnership", "collaboration", "cooperation", "stakeholder", "multi-stakeholder",
   "network", "alliance", "development", "finance", "investment",
   "technology transfer", "capacity building", "global partnership",
   "sustainable development"]

/-- `SDGClassifier.SDG_KEYWORDS`: the category-to-keyword-list mapping, in
the insertion (= iteration) order of the source dictionary. The
`SDGChoices` text-choice members are modelled by their string values. -/
def SDG_KEYWORDS : List (String × List String) :=
  [("SDG_1", sdg1_keywords), ("SDG_2", sdg2_keywords), ("SDG_3", sdg3_keywords),
   ("SDG_4", sdg4_keywords), ("SDG_5", sdg5_keywords), ("SDG_6", sdg6_keywords),
   ("SDG_7", sdg7_keywords), ("SDG_8", sdg8_keywords), ("SDG_9", sdg9_keywords),
   ("SDG_10", sdg10_keywords), ("SDG_11", sdg11_keywords), ("SDG_12", sdg12_keywords),
   ("SDG_13", sdg13_keywords), ("SDG_14", sdg14_keywords), ("SDG_15", sdg15_keywords),
   ("SDG_16", sdg16_keywords), ("SDG_17", sdg17_keywords)]

/-- `SDGClassifier.classify_text`: guard on empty / whitespace-only text
(`if not text or not text.strip()`), then keep the categories whose
truncated match count is non-zero (`if not matches: continue`) and whose
ratio `matches / len(keywords)` reaches the threshold, in the iteration
order of `SDG_KEYWORDS`. -/
def classify_text (text : String) (threshold : ℚ) : List String :=
  if text.data.isEmpty || text.data.all (·.isWhitespace) then []
  else
    let tokens := _tokenize (_normalize_text text)
    (SDG_KEYWORDS.filter (fun p =>
      let m := _count_keyword_matches tokens p.2
      let match_ratio : ℚ := mkRat m p.2.length
      m != 0 && decide (match_ratio ≥ threshold))).map Prod.fst

/-- `SDGClassifier.classify_publication`: classify the title at
`threshold + 0.1` and the abstract at `threshold` (each only when the
field is non-empty), and return `sorted(list(set(...)))` of the union.
Python sorts the category strings lexicographically; the set-then-sort is
modelled by `dedup` followed by an insertion sort on `String`. -/
def classify_publication (title : String) (abstract : String) (threshold : ℚ) :
    List String :=
  let title_sdgs := if title ≠ "" then classify_text title (threshold + mkRat 1 10) else []
  let abstract_sdgs := if abstract ≠ "" then classify_text abstract threshold else []
  ((title_sdgs ++ abstract_sdgs).dedup).insertionSort (fun a b => pyStrLe a b = true)

end SDGClassifier

/-- Position of a category code in the classifier's table, i.e. its SDG
number minus one: the order the codes are defined in (`SDG_1` … `SDG_17`). -/
def sdgIdx (c : String) : ℕ :=
  (SDGClassifier.SDG_KEYWORDS.map Prod.fst).indexOf c

/-! ## Embedding of `services.py`

Vector components are modelled as `ℚ` (the similarity arithmetic of the
services is `1 - d/2` plus clamping, which is exact); Python `None` as
`Option`; a raised exception as `Except.error`.  The external numeric
kernels (numpy global RNG, `np.linalg.norm`, and the cosine-distance
kernels of scipy / pgvector) are opaque compiled libraries, so they enter
the model as explicit parameters; the claims constrain them only through
hypotheses (e.g. that a cosine kernel raises on a dimension mismatch). -/

/-- `EmbeddingService.EMBEDDING_DIMENSION`. -/
def EMBEDDING_DIMENSION : ℕ := 384

/-- The external numpy interface used by the fallback branch of
`EmbeddingService.get_embedding`.  The global RNG state is abstracted as a
natural number; `np.random.seed` replaces it by a pure function of the
seed, and `np.random.randn` consumes it.  `hash` is the process-wide
Python string hash. -/
structure NumpyKernel where
  seedState : ℕ → ℕ
  randn : ℕ → ℕ → List ℚ × ℕ
  norm : List ℚ → ℚ
  hash : String → ℤ

/-- The seed of the fallback generator: `hash(text) % (2**32)`
(`Int.emod` agrees with the Python `%` for a positive modulus). -/
def fallbackSeed (k : NumpyKernel) (text : String) : ℕ :=
  ((k.hash text) % ((2 : ℤ) ^ 32)).toNat

/-- `EmbeddingService.get_embedding`.  `model` is the lazily loaded
sentence-transformers backend (`none` when unavailable), `rng` the global
numpy RNG state. Empty or whitespace-only text short-circuits to `None`;
with a backend the encoded vector is returned; otherwise the fallback
seeds the RNG from the text hash, draws `EMBEDDING_DIMENSION`
standard-normal samples and divides them componentwise by their norm. -/
def get_embedding (k : NumpyKernel) (model : Option (String → List ℚ)) (rng : ℕ)
    (text : String) : Option (List ℚ) × ℕ :=
  if text.data.isEmpty || text.data.all (·.isWhitespace) then (none, rng)
  else
    match model with
    | some m => (some (m text), rng)
    | none =>
      let seeded := k.seedState (fallbackSeed k text)
      let drawn := k.randn seeded EMBEDDING_DIMENSION
      (some (drawn.1.map (fun x => x / k.norm drawn.1)), drawn.2)

/-- The `research_graph.models.Researcher` fields the services read. -/
structure Researcher where
  id : ℕ
  department : Option String
  interests_embedding : Option (List ℚ)

/-- The `research_graph.models.Publication` fields the services read. -/
structure Publication where
  id : ℕ
  abstract_embedding : Option (List ℚ)

/-- Python truthiness test `not vector` applied to an optional vector
field: true for `None` and for an empty vector. -/
def pyFalsyVec : Option (List ℚ) → Bool
  | none => true
  | some v => v.isEmpty

/-- Ranking by ascending annotated distance (`order_by('similarity')` /
`order_by('alignment')` of the queryset). The sort is stable, matching
the deterministic tie-break by candidate order. -/
def sortByDistance {α : Type} (l : List (α × ℚ)) : List (α × ℚ) :=
  l.insertionSort (fun p q => decide (p.2 ≤ q.2) = true)

/-- Body of the `try:` block of
`SupervisorMatchingService.find_supervisor_match`: embed the thesis
abstract (`none` short-circuits to an empty list), keep researchers whose
interest vector is present, annotate each with the cosine distance
(`cosdist` is the pgvector `CosineDistance` kernel; a raised error aborts
the whole query), apply the optional department filter, order by
ascending distance, truncate to `top_k` and report `1 - distance/2`. -/
def find_supervisor_match_try (embed : String → Option (List ℚ))
    (cosdist : List ℚ → List ℚ → Except String ℚ) (researchers : List Researcher)
    (thesis_abstract : String) (department : Option String) (top_k : ℕ) :
    Except String (List (Researcher × ℚ)) := do
  match embed thesis_abstract with
  | none => return []
  | some thesis_embedding =>
    let withVec := researchers.filter (fun r => r.interests_embedding.isSome)
    let annotated ← withVec.mapM (fun r => do
      let d ← cosdist (r.interests_embedding.getD []) thesis_embedding
      return (r, d))
    let filtered := match department with
      | none => annotated
      | some dep => annotated.filter (fun p => p.1.department == some dep)
    return ((sortByDistance filtered).take top_k).map (fun p => (p.1, 1 - p.2 / 2))

/-- `SupervisorMatchingService.find_supervisor_match`: the `try:` body
with the catch-all `except Exception` that logs and returns `[]`.  The
result type stays `Except` to record what the caller observes: a caught
exception surfaces as `.ok []`, never as `.error`. -/
def find_supervisor_match (embed : String → Option (List ℚ))
    (cosdist : List ℚ → List ℚ → Except String ℚ) (researchers : List Researcher)
    (thesis_abstract : String) (department : Option String) (top_k : ℕ) :
    Except String (List (Researcher × ℚ)) :=
  match find_supervisor_match_try embed cosdist researchers thesis_abstract department top_k with
  | .ok r => .ok r
  | .error _ => .ok []

/-- Body of the `try:` block of
`SupervisorMatchingService.find_thesis_matches`: a falsy interest vector
short-circuits to an empty list, otherwise publications carrying an
abstract vector are ranked by cosine distance to the researcher's own
stored vector. -/
def find_thesis_matches_try (cosdist : List ℚ → List ℚ → Except String ℚ)
    (publications : List Publication) (researcher : Researcher) (top_k : ℕ) :
    Except String (List (Publication × ℚ)) := do
  if pyFalsyVec researcher.interests_embedding then return []
  else
    let withVec := publications.filter (fun p => p.abstract_embedding.isSome)
    let annotated ← withVec.mapM (fun p => do
      let d ← cosdist (p.abstract_embedding.getD [])
        (researcher.interests_embedding.getD [])
      return (p, d))
    return ((sortByDistance annotated).take top_k).map (fun p => (p.1, 1 - p.2 / 2))

/-- `SupervisorMatchingService.find_thesis_matches` with its catch-all
`except Exception` returning `[]`. -/
def find_thesis_matches (cosdist : List ℚ → List ℚ → Except String ℚ)
    (publications : List Publication) (researcher : Researcher) (top_k : ℕ) :
    Except String (List (Publication × ℚ)) :=
  match find_thesis_matches_try cosdist publications researcher top_k with
  | .ok r => .ok r
  | .error _ => .ok []

/-- Body of the `try:` block of
`GrantAlignmentService.find_aligned_researchers` (same shape as the
supervisor match, with the grant description as the query). -/
def find_aligned_researchers_try (embed : String → Option (List ℚ))
    (cosdist : List ℚ → List ℚ → Except String ℚ) (researchers : List Researcher)
    (grant_description : String) (department : Option String) (top_k : ℕ) :
    Except String (List (Researcher × ℚ)) := do
  match embed grant_description with
  | none => return []
  | some grant_embedding =>
    let withVec := researchers.filter (fun r => r.interests_embedding.isSome)
    let annotated ← withVec.mapM (fun r => do
      let d ← cosdist (r.interests_embedding.getD []) grant_embedding
      return (r, d))
    let filtered := match department with
      | none => annotated
      | some dep => annotated.filter (fun p => p.1.department == some dep)
    return ((sortByDistance filtered).take top_k).map (fun p => (p.1, 1 - p.2 / 2))

/-- `GrantAlignmentService.find_aligned_researchers` with its catch-all
`except Exception` returning `[]`. -/
def find_aligned_researchers (embed : String → Option (List ℚ))
    (cosdist : List ℚ → List ℚ → Except String ℚ) (researchers : List Researcher)
    (grant_description : String) (department : Option String) (top_k : ℕ) :
    Except String (List (Researcher × ℚ)) :=
  match find_aligned_researchers_try embed cosdist researchers grant_description department top_k with
  | .ok r => .ok r
  | .error _ => .ok []

/-- Body of the outer `try:` block of
`GrantAlignmentService.score_researcher_for_grant`: falsy researcher
vector or failed grant embedding give score `0.0`; otherwise the scipy
cosine distance is taken inside the inner bare `try/except`, whose
`except:` arm sets `similarity = 0.0`; `1 - d/2` is used when `d <= 2`,
else `0`; the result is clamped to `[0, 1]`. -/
def score_researcher_for_grant_try (embed : String → Option (List ℚ))
    (cosdist : List ℚ → List ℚ → Except String ℚ) (researcher : Researcher)
    (grant_description : String) : Except String ℚ := do
  if pyFalsyVec researcher.interests_embedding then return 0
  else
    match embed grant_description with
    | none => return 0
    | some grant_vector =>
      let similarity : ℚ :=
        match cosdist (researcher.interests_embedding.getD []) grant_vector with
        | .ok distance_value => if distance_value ≤ 2 then 1 - distance_value / 2 else 0
        | .error _ => 0
      return max 0 (min 1 similarity)

/-- `GrantAlignmentService.score_researcher_for_grant` with its catch-all
`except Exception` returning `0.0`. -/
def score_researcher_for_grant (embed : String → Option (List ℚ))
    (cosdist : List ℚ → List ℚ → Except String ℚ) (researcher : Researcher)
    (grant_description : String) : Except String ℚ :=
  match score_researcher_for_grant_try embed cosdist researcher grant_description with
  | .ok r => .ok r
  | .error _ => .ok 0

/-- Dot product of two rational vectors. -/
def dotQ (u v : List ℚ) : ℚ :=
  (List.zipWith (fun a b => a * b) u v).sum

/-- The value `d` is the cosine distance of the (same-dimension, non-zero)
vectors `u` and `v`: `d = 1 - u·v / (‖u‖‖v‖)`, stated multiplicatively
over `ℝ` to keep the square roots inside the proposition. -/
def IsCosineDistance (u v : List ℚ) (d : ℚ) : Prop :=
  u.length = v.length ∧ dotQ u u ≠ 0 ∧ dotQ v v ≠ 0 ∧
    ((1 : ℝ) - (d : ℚ)) * (Real.sqrt ((dotQ u u : ℚ)) * Real.sqrt ((dotQ v v : ℚ))) =
      ((dotQ u v : ℚ) : ℝ)

/-! ## Theorems -/

/-- C9: Empty input is a no-result outcome, not an error: for every empty
or whitespace-only text, `get_embedding` returns `None` with no
computation attempted (the RNG state is untouched), and `classify_text`
returns the empty list. -/
theorem empty_input_yields_no_result (k : NumpyKernel)
    (model : Option (String → List ℚ)) (rng : ℕ) (text : String) (threshold : ℚ)
    (h : (text.data.isEmpty || text.data.all (·.isWhitespace)) = true) :
    get_embedding k model rng text = (none, rng) ∧
    SDGClassifier.classify_text text threshold = [] := by
  constructor
  · unfold get_embedding
    rw [if_pos h]
  · unfold SDGClassifier.classify_text
    rw [if_pos h]

/-- Witness for C9 at the concrete inputs of the claim:
`classify_text "" 0.3 = []` and `get_embedding` on the empty string. -/
theorem empty_input_yields_no_result_witness :
    (("".data.isEmpty || "".data.all (·.isWhitespace)) = true) ∧
    get_embedding ⟨id, fun s _ => ([], s), fun _ => 1, fun _ => 0⟩ none 7 "" = (none, 7) ∧
    SDGClassifier.classify_text "" (mkRat 3 10) = [] := by
  refine ⟨by decide, ?_⟩
  have h := empty_input_yields_no_result ⟨id, fun s _ => ([], s), fun _ => 1, fun _ => 0⟩
    none 7 "" (mkRat 3 10) (by decide)
  exact h

/-- C7: Determinism of the fallback embedding: with the primary backend
unavailable, the returned vector does not depend on the incoming global
RNG state (the seed is recomputed from the text hash on every call, so
repeated calls within one process return the same vector), and that
vector is the componentwise normalization of the `EMBEDDING_DIMENSION`
standard-normal samples drawn after seeding from `hash(text) % 2**32`. -/
theorem fallback_embedding_deterministic (k : NumpyKernel) (rng1 rng2 : ℕ)
    (text : String)
    (htext : (text.data.isEmpty || text.data.all (·.isWhitespace)) = false)
    (hlen : ∀ s n, ((k.randn s n).1).length = n) :
    (get_embedding k none rng1 text).1 = (get_embedding k none rng2 text).1 ∧
    ∃ samples : List ℚ,
      samples = (k.randn (k.seedState (fallbackSeed k text)) EMBEDDING_DIMENSION).1 ∧
      samples.length = EMBEDDING_DIMENSION ∧
      (get_embedding k none rng1 text).1 =
        some (samples.map (fun x => x / k.norm samples)) := by
  unfold get_embedding
  rw [if_neg (by simp [htext]), if_neg (by simp [htext])]
  exact ⟨rfl, _, rfl, hlen _ _, rfl⟩

/-- Witness for C7 at a concrete kernel and two distinct RNG states. -/
theorem fallback_embedding_deterministic_witness :
    ((("hello".data.isEmpty || "hello".data.all (·.isWhitespace))) = false) ∧
    (get_embedding ⟨id, fun s n => (List.replicate n 2, s + 1), fun _ => 2, fun _ => 5⟩
        none 0 "hello").1 =
      (get_embedding ⟨id, fun s n => (List.replicate n 2, s + 1), fun _ => 2, fun _ => 5⟩
        none 99 "hello").1 := by
  refine ⟨by decide, ?_⟩
  exact (fallback_embedding_deterministic
    ⟨id, fun s n => (List.replicate n 2, s + 1), fun _ => 2, fun _ => 5⟩ 0 99 "hello"
    (by decide) (fun s n => by simp)).1

/-- C8: each facade matching operation returns an empty list when the
query embedding cannot be produced (or, for the publication
recommendation, when the researcher's stored interest vector is falsy),
and in all cases the caller observes a well-formed `.ok` result, never a
raised exception. -/
theorem matching_ops_empty_on_missing_input
    (embed : String → Option (List ℚ)) (cosdist : List ℚ → List ℚ → Except String ℚ)
    (researchers : List Researcher) (publications : List Publication)
    (thesis_abstract grant_description : String) (department : Option String)
    (k1 k2 k3 : ℕ) (r : Researcher) :
    (embed thesis_abstract = none →
      find_supervisor_match embed cosdist researchers thesis_abstract department k1 = .ok []) ∧
    (embed grant_description = none →
      find_aligned_researchers embed cosdist researchers grant_description department k2 = .ok []) ∧
    (pyFalsyVec r.interests_embedding = true →
      find_thesis_matches cosdist publications r k3 = .ok []) ∧
    (∃ l, find_supervisor_match embed cosdist researchers thesis_abstract department k1 = .ok l) ∧
    (∃ l, find_aligned_researchers embed cosdist researchers grant_description department k2 = .ok l) ∧
    (∃ l, find_thesis_matches cosdist publications r k3 = .ok l) := by
  refine ⟨fun h => ?_, fun h => ?_, fun h => ?_, ?_, ?_, ?_⟩
  · simp [find_supervisor_match, find_supervisor_match_try, h, pure, Except.pure]
  · simp [find_aligned_researchers, find_aligned_researchers_try, h, pure, Except.pure]
  · simp [find_thesis_matches, find_thesis_matches_try, h, pure, Except.pure]
  · unfold find_supervisor_match
    cases find_supervisor_match_try embed cosdist researchers thesis_abstract department k1 with
    | ok l => exact ⟨l, rfl⟩
    | error e => exact ⟨[], rfl⟩
  · unfold find_aligned_researchers
    cases find_aligned_researchers_try embed cosdist researchers grant_description department k2 with
    | ok l => exact ⟨l, rfl⟩
    | error e => exact ⟨[], rfl⟩
  · unfold find_thesis_matches
    cases find_thesis_matches_try cosdist publications r k3 with
    | ok l => exact ⟨l, rfl⟩
    | error e => exact ⟨[], rfl⟩

/-- Witness for C8: a concrete environment whose embedder fails and a
researcher without a stored vector. -/
theorem matching_ops_empty_on_missing_input_witness :
    find_supervisor_match (fun _ => none) (fun _ _ => .ok 0) [] "t" none 5 = .ok [] ∧
    find_aligned_researchers (fun _ => none) (fun _ _ => .ok 0) [] "g" none 10 = .ok [] ∧
    find_thesis_matches (fun _ _ => .ok 0) [] ⟨1, none, none⟩ 5 = .ok [] := by
  have h := matching_ops_empty_on_missing_input (fun _ => none) (fun _ _ => .ok 0)
    [] [] "t" "g" none 5 10 5 ⟨1, none, none⟩
  exact ⟨h.1 rfl, h.2.1 rfl, h.2.2.1 rfl⟩

/-- C2 (divergence exhibit): when the cosine kernel raises on a
dimension mismatch (stored vector `[1, 0]` against query `[1, 0, 0]`),
the error does NOT propagate to the caller: `score_researcher_for_grant`
catches it (inner bare `except:` and outer `except Exception`) and
reports the zero score `.ok 0`, and `find_supervisor_match` catches it
and reports the empty list `.ok []` — exactly the masking outcome the
specification rules out. -/
theorem dimension_mismatch_swallowed (embed : String → Option (List ℚ))
    (cosdist : List ℚ → List ℚ → Except String ℚ) (e : String)
    (hdist : cosdist [1, 0] [1, 0, 0] = .error e)
    (hembed : embed "grant" = some [1, 0, 0]) :
    score_researcher_for_grant embed cosdist ⟨1, none, some [1, 0]⟩ "grant" = .ok 0 ∧
    find_supervisor_match embed cosdist [⟨1, none, some [1, 0]⟩] "grant" none 5 = .ok [] := by
  constructor
  · simp [score_researcher_for_grant, score_researcher_for_grant_try, hembed, hdist,
      pyFalsyVec, pure, Except.pure]
  · simp [find_supervisor_match, find_supervisor_match_try, hembed, hdist,
      List.mapM, List.mapM.loop, Except.bind, bind, pure, Except.pure]

/-- Witness for C2 with a concrete length-checking cosine kernel. -/
theorem dimension_mismatch_swallowed_witness :
    score_researcher_for_grant (fun _ => some [1, 0, 0])
      (fun u v => if u.length = v.length then .ok 0 else .error "ValueError")
      ⟨1, none, some [1, 0]⟩ "grant" = .ok 0 ∧
    find_supervisor_match (fun _ => some [1, 0, 0])
      (fun u v => if u.length = v.length then .ok 0 else .error "ValueError")
      [⟨1, none, some [1, 0]⟩] "grant" none 5 = .ok [] :=
  dimension_mismatch_swallowed (fun _ => some [1, 0, 0])
    (fun u v => if u.length = v.length then .ok 0 else .error "ValueError")
    "ValueError" rfl rfl

/-- C3: for non-zero vectors of equal dimension whose cosine distance is
`d ∈ [0, 2]`, both matching services report the similarity `1 - d/2` (so
distance 0 gives 1, distance 1 gives 0.5, distance 2 gives 0); the
`d ≤ 2` guard and the `[0, 1]` clamp of `score_researcher_for_grant` are
inactive on this range. -/
theorem similarity_eq_one_sub_half_distance (embed : String → Option (List ℚ))
    (cosdist : List ℚ → List ℚ → Except String ℚ) (u v : List ℚ) (d : ℚ)
    (hcos : IsCosineDistance u v d) (hd0 : 0 ≤ d) (hd2 : d ≤ 2)
    (hdist : cosdist u v = .ok d) (text : String) (hembed : embed text = some v)
    (i : ℕ) (dep : Option String) :
    score_researcher_for_grant embed cosdist ⟨i, dep, some u⟩ text = .ok (1 - d / 2) ∧
    find_supervisor_match embed cosdist [⟨i, dep, some u⟩] text none 5 =
      .ok [(⟨i, dep, some u⟩, 1 - d / 2)] := by
  have hu : u ≠ [] := by
    intro h
    exact hcos.2.1 (by simp [h, dotQ])
  have hclamp : max 0 (min 1 (1 - d / 2)) = 1 - d / 2 := by
    rw [min_eq_right (by linarith), max_eq_right (by linarith)]
  constructor
  · simp [score_researcher_for_grant, score_researcher_for_grant_try, hembed, hdist,
      pyFalsyVec, pure, Except.pure, hu, if_pos hd2, hclamp]
  · simp [find_supervisor_match, find_supervisor_match_try, hembed, hdist,
      List.mapM, List.mapM.loop, Except.bind, bind, pure, Except.pure,
      sortByDistance, List.insertionSort, List.orderedInsert]

/-- Witness for C3 at the orthogonal pair `[1,0]`, `[0,1]` with cosine
distance 1: the reported similarity is `1 - 1/2 = 0.5`. -/
theorem similarity_eq_one_sub_half_distance_witness :
    IsCosineDistance [1, 0] [0, 1] 1 ∧
    score_researcher_for_grant (fun _ => some [0, 1]) (fun _ _ => .ok 1)
      ⟨1, none, some [1, 0]⟩ "t" = .ok (1 - 1 / 2) ∧
    find_supervisor_match (fun _ => some [0, 1]) (fun _ _ => .ok 1)
      [⟨1, none, some [1, 0]⟩] "t" none 5 = .ok [(⟨1, none, some [1, 0]⟩, 1 - 1 / 2)] ∧
    (1 : ℚ) - 1 / 2 = 1 / 2 := by
  have hcos : IsCosineDistance [1, 0] [0, 1] 1 := by
    refine ⟨rfl, by norm_num [dotQ], by norm_num [dotQ], ?_⟩
    norm_num [dotQ]
  have h := similarity_eq_one_sub_half_distance (fun _ => some [0, 1]) (fun _ _ => .ok 1)
    [1, 0] [0, 1] 1 hcos (by norm_num) (by norm_num) rfl "t" rfl 1 none
  exact ⟨hcos, h.1, h.2, by norm_num⟩

open SDGClassifier

/-- Whitespace characters are untouched by the ASCII lowercasing. -/
theorem pyLower_of_isWhitespace {c : Char} (h : c.isWhitespace = true) : pyLower c = c := by
  simp only [Char.isWhitespace, Bool.or_eq_true, decide_eq_true_eq] at h
  rcases h with ((h | h) | h) | h <;> subst h <;> decide

/-- Unfolding equation for `splitAux`. -/
theorem splitAux_cons (c : Char) (l : List Char) :
    splitAux (c :: l) = addChar c (splitAux l) := rfl

/-- A leading whitespace character contributes no word. -/
theorem pyWords_cons_white {c : Char} (h : c.isWhitespace = true) (l : List Char) :
    pyWords (c :: l) = pyWords l := by
  unfold pyWords
  rw [splitAux_cons]
  unfold addChar
  rw [if_pos h]
  simp

/-- A whitespace-only character list has no words. -/
theorem pyWords_of_all_white : ∀ {l : List Char},
    (∀ c ∈ l, c.isWhitespace = true) → pyWords l = []
  | [], _ => rfl
  | c :: t, h => by
    rw [pyWords_cons_white (h c (by simp)) t]
    exact pyWords_of_all_white (fun x hx => h x (by simp [hx]))

/-- Mapping a function that fixes every member of a list is the identity. -/
theorem list_map_id {α : Type} (f : α → α) : ∀ (l : List α),
    (∀ a ∈ l, f a = a) → l.map f = l
  | [], _ => rfl
  | a :: t, h => by
    simp only [List.map_cons, h a (by simp)]
    rw [list_map_id f t (fun x hx => h x (by simp [hx]))]

/-- When the emptiness guard of `classify_text` fires, the token set of
the normalized text is empty. -/
theorem tokens_nil_of_guard {text : String}
    (h : (text.data.isEmpty || text.data.all (·.isWhitespace)) = true) :
    _tokenize (_normalize_text text) = [] := by
  have hwhite : ∀ c ∈ text.data, c.isWhitespace = true := by
    rcases Bool.or_eq_true_iff.mp h with h1 | h1
    · intro c hc
      rw [List.isEmpty_iff.mp h1] at hc
      exact absurd hc (List.not_mem_nil c)
    · exact fun c hc => List.all_eq_true.mp h1 c hc
  have hmap : text.data.map pyLower = text.data :=
    list_map_id _ _ (fun c hc => pyLower_of_isWhitespace (hwhite c hc))
  have hsub : subChars text.data = text.data := by
    unfold subChars
    refine list_map_id _ _ (fun c hc => ?_)
    rw [if_pos]
    simp [keepChar, hwhite c hc]
  unfold _tokenize _normalize_text
  rw [hmap, hsub, pyWords_of_all_white hwhite]
  rfl

/-- A keyword whose word list is non-empty earns no credit against an
empty token set. -/
theorem phraseCredit_nil {kw : String} (h : pyWords (kw.data.map pyLower) ≠ []) :
    phraseCredit [] kw = 0 := by
  unfold phraseCredit
  cases hp : pyWords (kw.data.map pyLower) with
  | nil => exact absurd hp h
  | cons w ws => simp [hp]

/-- Every keyword of the classifier table splits into at least one word. -/
theorem sdg_keyword_words_nonempty :
    ∀ p ∈ SDG_KEYWORDS, ∀ kw ∈ p.2, pyWords (kw.data.map pyLower) ≠ [] := by decide

/-- Against an empty token set the truncated match count of any table
entry is zero. -/
theorem count_keyword_matches_nil {keywords : List String}
    (h : ∀ kw ∈ keywords, pyWords (kw.data.map pyLower) ≠ []) :
    _count_keyword_matches [] keywords = 0 := by
  unfold _count_keyword_matches
  rw [List.sum_eq_zero]
  · rfl
  · intro x hx
    obtain ⟨kw, hkw, rfl⟩ := List.mem_map.mp hx
    exact phraseCredit_nil (h kw hkw)

/-- The 17 category codes of the table are distinct. -/
theorem keys_nodup : (SDG_KEYWORDS.map Prod.fst).Nodup := by decide

/-- Membership characterization of `classify_text`: a table entry's code
is returned iff the guard passes, its truncated match count is non-zero,
and the match ratio reaches the threshold. -/
theorem mem_classify_text_iff {text : String} {th : ℚ} {p : String × List String}
    (hp : p ∈ SDG_KEYWORDS) :
    p.1 ∈ classify_text text th ↔
      ((text.data.isEmpty || text.data.all (·.isWhitespace)) = false ∧
       _count_keyword_matches (_tokenize (_normalize_text text)) p.2 ≠ 0 ∧
       th ≤ mkRat (_count_keyword_matches (_tokenize (_normalize_text text)) p.2)
         p.2.length) := by
  unfold classify_text
  by_cases hg : (text.data.isEmpty || text.data.all (·.isWhitespace)) = true
  · rw [if_pos hg]
    simp [hg]
  · rw [if_neg hg]
    simp only [Bool.not_eq_true] at hg
    constructor
    · intro hc
      obtain ⟨q, hq, hqc⟩ := List.mem_map.mp hc
      obtain ⟨hqm, hpred⟩ := List.mem_filter.mp hq
      have hqp : q = p := List.inj_on_of_nodup_map keys_nodup hqm hp hqc
      subst hqp
      simp only [bne_iff_ne, ne_eq, Bool.and_eq_true, decide_eq_true_eq, ge_iff_le] at hpred
      exact ⟨hg, hpred.1, hpred.2⟩
    · rintro ⟨-, hm, hr⟩
      refine List.mem_map.mpr ⟨p, List.mem_filter.mpr ⟨hp, ?_⟩, rfl⟩
      simp only [bne_iff_ne, ne_eq, Bool.and_eq_true, decide_eq_true_eq, ge_iff_le]
      exact ⟨hm, hr⟩

/-- C1 (counterexample to the claim as stated): at threshold `0` the
text `"zzz"` has a non-empty token set and every category's ratio
`0 / |K| = 0` reaches the threshold, yet `classify_text` returns no
category (the source also requires a non-zero truncated match count,
`if not matches: continue`). Shown here for `SDG_1`. -/
theorem classify_text_zero_threshold_cex :
    _tokenize (_normalize_text "zzz") ≠ [] ∧
    ("SDG_1", sdg1_keywords) ∈ SDG_KEYWORDS ∧
    ((_count_keyword_matches (_tokenize (_normalize_text "zzz")) sdg1_keywords : ℚ) /
      (sdg1_keywords.length : ℚ) ≥ (0 : ℚ)) ∧
    "SDG_1" ∉ classify_text "zzz" (0 : ℚ) ∧
    ¬ ("SDG_1" ∈ classify_text "zzz" (0 : ℚ) ↔
        ((_count_keyword_matches (_tokenize (_normalize_text "zzz")) sdg1_keywords : ℚ) /
          (sdg1_keywords.length : ℚ) ≥ (0 : ℚ))) := by
  have h0 : _count_keyword_matches (_tokenize (_normalize_text "zzz")) sdg1_keywords = 0 := by
    decide
  have hr : ((_count_keyword_matches (_tokenize (_normalize_text "zzz")) sdg1_keywords : ℚ) /
      (sdg1_keywords.length : ℚ) ≥ (0 : ℚ)) := by
    rw [h0]
    norm_num
  have hnm : "SDG_1" ∉ classify_text "zzz" (0 : ℚ) := by decide
  exact ⟨by decide, by decide, hr, hnm, fun hiff => hnm (hiff.mpr hr)⟩

/-- C1 (amended): for every text and threshold, a category of the table
is included in `classify_text text threshold` iff its truncated match
count is non-zero AND `m / |K| ≥ threshold`; for positive thresholds the
non-zero condition is redundant and the inclusion is equivalent to
`m / |K| ≥ threshold` alone, as the claim states. -/
theorem classify_text_inclusion_iff (text : String) (th : ℚ) (p : String × List String)
    (hp : p ∈ SDG_KEYWORDS) :
    (p.1 ∈ classify_text text th ↔
      (_count_keyword_matches (_tokenize (_normalize_text text)) p.2 ≠ 0 ∧
        ((_count_keyword_matches (_tokenize (_normalize_text text)) p.2 : ℚ) /
          (p.2.length : ℚ) ≥ th))) ∧
    (0 < th →
      (p.1 ∈ classify_text text th ↔
        ((_count_keyword_matches (_tokenize (_normalize_text text)) p.2 : ℚ) /
          (p.2.length : ℚ) ≥ th))) := by
  have hmk : ∀ m l : ℕ, (mkRat m l : ℚ) = (m : ℚ) / (l : ℚ) := by
    intro m l
    rw [Rat.mkRat_eq_div]
    norm_num
  have h1 : p.1 ∈ classify_text text th ↔
      (_count_keyword_matches (_tokenize (_normalize_text text)) p.2 ≠ 0 ∧
        ((_count_keyword_matches (_tokenize (_normalize_text text)) p.2 : ℚ) /
          (p.2.length : ℚ) ≥ th)) := by
    rw [mem_classify_text_iff hp]
    constructor
    · rintro ⟨-, hm, hr⟩
      exact ⟨hm, by rw [← hmk]; exact hr⟩
    · rintro ⟨hm, hr⟩
      refine ⟨?_, hm, by rw [hmk]; exact hr⟩
      by_cases hg : (text.data.isEmpty || text.data.all (·.isWhitespace)) = true
      · rw [tokens_nil_of_guard hg,
          count_keyword_matches_nil (sdg_keyword_words_nonempty p hp)] at hm
        exact absurd rfl hm
      · simpa using hg
  refine ⟨h1, fun hth => ?_⟩
  rw [h1]
  constructor
  · exact fun h => h.2
  · intro hr
    refine ⟨fun hm0 => ?_, hr⟩
    rw [hm0] at hr
    simp only [Nat.cast_zero, zero_div, ge_iff_le] at hr
    linarith

/-- Witness for C1 (amended) at `SDG_13`, the text `"climate change"`
and threshold `0.1` (the match count is 3 over 17 keywords, so the
category is included). -/
theorem classify_text_inclusion_iff_witness :
    ("SDG_13", sdg13_keywords) ∈ SDG_KEYWORDS ∧ (0 : ℚ) < mkRat 1 10 ∧
    ("SDG_13" ∈ classify_text "climate change" (mkRat 1 10) ↔
      ((_count_keyword_matches (_tokenize (_normalize_text "climate change"))
          sdg13_keywords : ℚ) / (sdg13_keywords.length : ℚ) ≥ mkRat 1 10)) := by
  refine ⟨by decide, by decide, ?_⟩
  exact (classify_text_inclusion_iff "climate change" (mkRat 1 10)
    ("SDG_13", sdg13_keywords) (by decide)).2 (by decide)

/-- C4: threshold monotonicity — for a fixed text and thresholds
`t1 < t2`, every category returned at the higher threshold `t2` is also
returned at the lower threshold `t1`. -/
theorem classify_text_threshold_antitone (text : String) (t1 t2 : ℚ) (h : t1 < t2) :
    classify_text text t2 ⊆ classify_text text t1 := by
  intro c hc
  unfold classify_text at hc ⊢
  by_cases hg : (text.data.isEmpty || text.data.all (·.isWhitespace)) = true
  · rw [if_pos hg] at hc
    exact absurd hc (List.not_mem_nil c)
  · rw [if_neg hg] at hc ⊢
    obtain ⟨q, hq, hqc⟩ := List.mem_map.mp hc
    obtain ⟨hqm, hpred⟩ := List.mem_filter.mp hq
    refine List.mem_map.mpr ⟨q, List.mem_filter.mpr ⟨hqm, ?_⟩, hqc⟩
    simp only [bne_iff_ne, ne_eq, Bool.and_eq_true, decide_eq_true_eq, ge_iff_le] at hpred ⊢
    exact ⟨hpred.1, le_trans (le_of_lt h) hpred.2⟩

/-- Witness for C4 at the thresholds `0.1 < 0.3` on a text classified
non-trivially at the lower threshold. -/
theorem classify_text_threshold_antitone_witness :
    mkRat 1 10 < mkRat 3 10 ∧
    classify_text "hunger famine inequality disparity" (mkRat 3 10) ⊆
      classify_text "hunger famine inequality disparity" (mkRat 1 10) :=
  ⟨by decide, classify_text_threshold_antitone "hunger famine inequality disparity"
    (mkRat 1 10) (mkRat 3 10) (by decide)⟩

/-- Classifying the empty string yields no categories, at any threshold. -/
theorem classify_text_empty (th : ℚ) : classify_text "" th = [] := rfl

/-- C5: `classify_publication` is exactly the deduplicated union of
`classify_text title (threshold + 0.1)` and
`classify_text abstract threshold`, returned sorted (Python sorts the
code strings lexicographically, here `pyStrLe`); the guards on empty
fields change nothing because classifying an empty field yields nothing. -/
theorem classify_publication_eq_sorted_union (title abstract : String) (threshold : ℚ) :
    classify_publication title abstract threshold =
      ((classify_text title (threshold + mkRat 1 10) ++
        classify_text abstract threshold).dedup).insertionSort
        (fun a b => pyStrLe a b = true) ∧
    ∀ c, c ∈ classify_publication title abstract threshold ↔
      (c ∈ classify_text title (threshold + mkRat 1 10) ∨
       c ∈ classify_text abstract threshold) := by
  have heq : classify_publication title abstract threshold =
      ((classify_text title (threshold + mkRat 1 10) ++
        classify_text abstract threshold).dedup).insertionSort
        (fun a b => pyStrLe a b = true) := by
    unfold classify_publication
    by_cases ht : title = "" <;> by_cases ha : abstract = "" <;>
      simp [ht, ha, classify_text_empty]
  refine ⟨heq, fun c => ?_⟩
  rw [heq, List.mem_insertionSort, List.mem_dedup, List.mem_append]

/-- The lexicographic code-point order is total. -/
theorem charListLe_total : ∀ a b : List Char, charListLe a b = true ∨ charListLe b a = true
  | [], _ => Or.inl rfl
  | _ :: _, [] => Or.inr rfl
  | a :: as, b :: bs => by
    unfold charListLe
    by_cases h : a.toNat = b.toNat
    · rw [if_pos h, if_pos h.symm]
      exact charListLe_total as bs
    · rw [if_neg h, if_neg (fun hh => h hh.symm)]
      simp only [decide_eq_true_eq]
      omega

/-- The lexicographic code-point order is transitive. -/
theorem charListLe_trans : ∀ a b c : List Char,
    charListLe a b = true → charListLe b c = true → charListLe a c = true
  | [], _, _, _, _ => rfl
  | _ :: _, [], _, hab, _ => by simp [charListLe] at hab
  | _ :: _, _ :: _, [], _, hbc => by simp [charListLe] at hbc
  | a :: as, b :: bs, c :: cs, hab, hbc => by
    unfold charListLe at hab hbc ⊢
    by_cases h1 : a.toNat = b.toNat
    · rw [if_pos h1] at hab
      by_cases h2 : b.toNat = c.toNat
      · rw [if_pos h2] at hbc
        rw [if_pos (h1.trans h2)]
        exact charListLe_trans as bs cs hab hbc
      · rw [if_neg h2] at hbc
        simp only [decide_eq_true_eq] at hbc
        rw [if_neg (fun hh => h2 (by omega))]
        simp only [decide_eq_true_eq]
        omega
    · rw [if_neg h1] at hab
      simp only [decide_eq_true_eq] at hab
      by_cases h2 : b.toNat = c.toNat
      · rw [if_neg (fun hh => h1 (by omega))]
        simp only [decide_eq_true_eq]
        omega
      · rw [if_neg h2] at hbc
        simp only [decide_eq_true_eq] at hbc
        rw [if_neg (fun hh => by omega)]
        simp only [decide_eq_true_eq]
        omega

/-- C6 (counterexample to the claim as stated): on the same input text
the two public operations emit the same two codes in opposite orders —
`classify_text` in table order `[SDG_2, SDG_10]` (not ascending as code
strings), `classify_publication` in string order `[SDG_10, SDG_2]` (not
ascending as SDG numbers) — so no single "ascending by category code"
order is respected by both. -/
theorem classifier_ordering_cex :
    classify_text "hunger famine inequality disparity" (mkRat 1 10) = ["SDG_2", "SDG_10"] ∧
    classify_publication "" "hunger famine inequality disparity" (mkRat 1 10) =
      ["SDG_10", "SDG_2"] ∧
    ¬ List.Sorted (fun a b => pyStrLe a b = true)
        (classify_text "hunger famine inequality disparity" (mkRat 1 10)) ∧
    ¬ List.Sorted (fun a b => sdgIdx a ≤ sdgIdx b)
        (classify_publication "" "hunger famine inequality disparity" (mkRat 1 10)) := by
  have h1 : classify_text "hunger famine inequality disparity" (mkRat 1 10) =
      ["SDG_2", "SDG_10"] := by decide
  have h2 : classify_publication "" "hunger famine inequality disparity" (mkRat 1 10) =
      ["SDG_10", "SDG_2"] := by decide
  refine ⟨h1, h2, ?_, ?_⟩
  · rw [h1]
    intro hs
    exact absurd (List.rel_of_sorted_cons hs "SDG_10" (by simp)) (by decide)
  · rw [h2]
    intro hs
    exact absurd (List.rel_of_sorted_cons hs "SDG_2" (by simp)) (by decide)

/-- C6 (amended): `classify_text` emits codes as a subsequence of the
table's key list, i.e. ascending by SDG number, while
`classify_publication` emits codes ascending in the lexicographic string
order used by Python's `sorted`. -/
theorem classifier_ordering_amended (text title abstract : String) (t1 t2 : ℚ) :
    (classify_text text t1).Sublist (SDG_KEYWORDS.map Prod.fst) ∧
    List.Sorted (fun a b => sdgIdx a ≤ sdgIdx b) (classify_text text t1) ∧
    List.Sorted (fun a b => pyStrLe a b = true)
      (classify_publication title abstract t2) := by
  have hsub : (classify_text text t1).Sublist (SDG_KEYWORDS.map Prod.fst) := by
    unfold classify_text
    split
    · exact List.nil_sublist _
    · exact List.Sublist.map Prod.fst (List.filter_sublist _)
  refine ⟨hsub, ?_, ?_⟩
  · have hpair : (SDG_KEYWORDS.map Prod.fst).Pairwise (fun a b => sdgIdx a ≤ sdgIdx b) := by
      decide
    exact hpair.sublist hsub
  · unfold classify_publication
    haveI : IsTotal String (fun a b => pyStrLe a b = true) :=
      ⟨fun a b => charListLe_total a.data b.data⟩
    haveI : IsTrans String (fun a b => pyStrLe a b = true) :=
      ⟨fun a b c => charListLe_trans a.data b.data c.data⟩
    exact List.sorted_insertionSort _ _

/-- Splitting a list that starts with a whitespace-free non-empty word:
the word absorbs into the first piece of the remainder. -/
theorem splitAux_append_word : ∀ (w l : List Char), w ≠ [] →
    (∀ c ∈ w, c.isWhitespace = false) →
    splitAux (w ++ l) = (match splitAux l with
      | [] => [w]
      | x :: xs => (w ++ x) :: xs)
  | [], _, hw, _ => absurd rfl hw
  | [a], l, _, hc => by
    rw [List.singleton_append, splitAux_cons]
    cases hsp : splitAux l with
    | nil => simp [addChar, hc a (by simp)]
    | cons x xs => simp [addChar, hc a (by simp)]
  | a :: b :: w, l, _, hc => by
    rw [List.cons_append, splitAux_cons,
      splitAux_append_word (b :: w) l (by simp) (fun c hcc => hc c (by simp [hcc]))]
    cases hsp : splitAux l with
    | nil => simp [addChar, hc a (by simp)]
    | cons x xs => simp [addChar, hc a (by simp)]

/-- Every character of every piece produced by `splitAux` comes from the
input and is not whitespace. -/
theorem mem_splitAux : ∀ (l : List Char), ∀ w ∈ splitAux l, ∀ c ∈ w,
    c ∈ l ∧ c.isWhitespace = false
  | [], w, hw, c, _ => absurd hw (List.not_mem_nil w)
  | a :: t, w, hw, c, hc => by
    rw [splitAux_cons] at hw
    unfold addChar at hw
    by_cases ha : a.isWhitespace = true
    · rw [if_pos ha] at hw
      rcases List.mem_cons.mp hw with rfl | hw'
      · exact absurd hc (List.not_mem_nil c)
      · have h := mem_splitAux t w hw' c hc
        exact ⟨List.mem_cons_of_mem a h.1, h.2⟩
    · rw [if_neg ha] at hw
      cases hsp : splitAux t with
      | nil =>
        rw [hsp] at hw
        have hwa : w = [a] := by simpa using hw
        subst hwa
        have hca : c = a := by simpa using hc
        subst hca
        exact ⟨List.mem_cons_self _ _, by simpa using ha⟩
      | cons x xs =>
        rw [hsp] at hw
        rcases List.mem_cons.mp hw with rfl | hw'
        · rcases List.mem_cons.mp hc with rfl | hcx
          · exact ⟨List.mem_cons_self _ _, by simpa using ha⟩
          · have h := mem_splitAux t x (by rw [hsp]; exact List.mem_cons_self x xs) c hcx
            exact ⟨List.mem_cons_of_mem a h.1, h.2⟩
        · have h := mem_splitAux t w (by rw [hsp]; exact List.mem_cons_of_mem x hw') c hc
          exact ⟨List.mem_cons_of_mem a h.1, h.2⟩

/-- Every character surviving the regexp substitution is in the kept
class. -/
theorem keepChar_of_mem_subChars {l : List Char} :
    ∀ c ∈ subChars l, keepChar c = true := by
  intro c hc
  unfold subChars at hc
  obtain ⟨a, _, hae⟩ := List.mem_map.mp hc
  by_cases hk : keepChar a = true
  · rw [if_pos hk] at hae
    rw [← hae]
    exact hk
  · rw [if_neg hk] at hae
    rw [← hae]
    decide

/-- A kept, non-whitespace character is already lowercase: lowercasing
fixes it. -/
theorem pyLower_of_keep {c : Char} (hk : keepChar c = true)
    (hw : c.isWhitespace = false) : pyLower c = c := by
  have hn : ¬(65 ≤ c.toNat ∧ c.toNat ≤ 90) := by
    unfold keepChar at hk
    simp only [Bool.or_eq_true, Bool.and_eq_true, decide_eq_true_eq] at hk
    rcases hk with ((h | h) | h) | h
    · omega
    · omega
    · rw [hw] at h
      cases h
    · omega
  unfold pyLower
  rw [if_neg hn]

/-- Every character of a joined word list lies in one of the words or is
the joining space. -/
theorem mem_joinWords : ∀ (ws : List (List Char)), ∀ c ∈ joinWords ws,
    (∃ w ∈ ws, c ∈ w) ∨ c = ' '
  | [], c, hc => absurd hc (List.not_mem_nil c)
  | [w], c, hc => Or.inl ⟨w, by simp, hc⟩
  | w :: x :: ws, c, hc => by
    have hj : joinWords (w :: x :: ws) = w ++ ' ' :: joinWords (x :: ws) := rfl
    rw [hj] at hc
    rcases List.mem_append.mp hc with h | h
    · exact Or.inl ⟨w, by simp, h⟩
    · rcases List.mem_cons.mp h with rfl | h'
      · exact Or.inr rfl
      · rcases mem_joinWords (x :: ws) c h' with ⟨w', hw', hcw'⟩ | hsp
        · exact Or.inl ⟨w', List.mem_cons_of_mem w hw', hcw'⟩
        · exact Or.inr hsp

/-- Splitting the space-joined list of non-empty whitespace-free words
recovers exactly those words. -/
theorem pyWords_joinWords : ∀ (ws : List (List Char)),
    (∀ w ∈ ws, w ≠ [] ∧ ∀ c ∈ w, c.isWhitespace = false) →
    pyWords (joinWords ws) = ws
  | [], _ => rfl
  | [w], h => by
    have hw := h w (by simp)
    unfold pyWords
    have h1 : splitAux (joinWords [w]) = [w] := by
      have : joinWords [w] = w ++ [] := by simp [joinWords]
      rw [this, splitAux_append_word w [] hw.1 hw.2]
      rfl
    rw [h1]
    have : (!w.isEmpty) = true := by
      simpa [List.isEmpty_iff] using hw.1
    simp [this]
  | w :: x :: ws, h => by
    have hw := h w (by simp)
    unfold pyWords
    have hj : joinWords (w :: x :: ws) = w ++ ' ' :: joinWords (x :: ws) := rfl
    have h2 : splitAux (' ' :: joinWords (x :: ws)) =
        [] :: splitAux (joinWords (x :: ws)) := by
      rw [splitAux_cons]
      simp [addChar]
    have h1 : splitAux (joinWords (w :: x :: ws)) =
        w :: splitAux (joinWords (x :: ws)) := by
      rw [hj, splitAux_append_word w _ hw.1 hw.2, h2]
      simp
    rw [h1]
    have hne : (!w.isEmpty) = true := by
      simpa [List.isEmpty_iff] using hw.1
    have ih := pyWords_joinWords (x :: ws) (fun u hu => h u (List.mem_cons_of_mem w hu))
    unfold pyWords at ih
    simp [hne, ih]

/-- C10: `_normalize_text` is idempotent — its output (lowercase kept
characters, single interior spaces, no leading or trailing whitespace) is
a fixed point of the normalization. -/
theorem normalize_text_idempotent (s : String) :
    _normalize_text (_normalize_text s) = _normalize_text s := by
  unfold _normalize_text
  have hdata : ∀ l : List Char, (List.asString l).data = l := fun _ => rfl
  rw [hdata]
  have hws : ∀ w ∈ pyWords (subChars (s.data.map pyLower)), w ≠ [] ∧
      (∀ c ∈ w, c.isWhitespace = false ∧ keepChar c = true) := by
    intro w hw
    have hfil := List.mem_filter.mp hw
    refine ⟨by simpa [List.isEmpty_iff] using hfil.2, fun c hc => ?_⟩
    have hmem := mem_splitAux _ w hfil.1 c hc
    exact ⟨hmem.2, keepChar_of_mem_subChars c hmem.1⟩
  have hchar : ∀ c ∈ joinWords (pyWords (subChars (s.data.map pyLower))),
      c.isWhitespace = true ∨ (c.isWhitespace = false ∧ keepChar c = true) := by
    intro c hc
    rcases mem_joinWords _ c hc with ⟨w, hw, hcw⟩ | rfl
    · exact Or.inr ((hws w hw).2 c hcw)
    · exact Or.inl (by decide)
  have hmap : (joinWords (pyWords (subChars (s.data.map pyLower)))).map pyLower =
      joinWords (pyWords (subChars (s.data.map pyLower))) := by
    refine list_map_id _ _ (fun c hc => ?_)
    rcases hchar c hc with h | h
    · exact pyLower_of_isWhitespace h
    · exact pyLower_of_keep h.2 h.1
  have hsub : subChars (joinWords (pyWords (subChars (s.data.map pyLower)))) =
      joinWords (pyWords (subChars (s.data.map pyLower))) := by
    unfold subChars
    refine list_map_id _ _ (fun c hc => ?_)
    rcases hchar c hc with h | h
    · rw [if_pos (by simp [keepChar, h])]
    · rw [if_pos h.2]
  rw [hmap, hsub, pyWords_joinWords _ (fun w hw =>
    ⟨(hws w hw).1, fun c hc => ((hws w hw).2 c hc).1⟩)]

end ResearchGraph
